import Mathlib

/-!
Shallow embedding of the irish-travel-advisory-map pipeline
(`src/scrape_advisories.py`, `src/create_map.py`).

Network fetches are modelled as `Except String α` inputs: `.ok` carries the
parsed page content the Python code reads out of the HTTP response, `.error`
stands for any exception raised by the request or the parser (the Python code
catches every exception in one `except` clause).  A country page is abstracted
to the two elements `get_advisory_level` actually queries: the class-token list
of the first `div.accordion_travel`, and the text of the first
`h3.accordion__title`.
-/

namespace TravelAdvisory

/-- ASCII lower-casing of one character, as Python `str.lower` acts on the
ASCII range (the only range used by the markers of the scraper). -/
def lowerChar (c : Char) : Char :=
  if 'A' ≤ c ∧ c ≤ 'Z' then Char.ofNat (c.toNat + 32) else c

/-- ASCII upper-casing of one character, as Python `str.upper` on ASCII. -/
def upperChar (c : Char) : Char :=
  if 'a' ≤ c ∧ c ≤ 'z' then Char.ofNat (c.toNat - 32) else c

/-- Python `s.lower()`. -/
def lowerStr (s : String) : String := ⟨s.data.map lowerChar⟩

/-- Substring containment on character lists: Python `needle in hay`. -/
def containsSub (needle : List Char) : List Char → Bool
  | [] => needle.isEmpty
  | c :: rest => needle.isPrefixOf (c :: rest) || containsSub needle rest

/-- Python `needle in hay` for strings. -/
def strContains (hay needle : String) : Bool := containsSub needle.data hay.data

/-- Python `s.count(c)` for a single-character argument. -/
def countChar (s : String) (c : Char) : Nat := s.data.count c

/-- Python `s.strip()`: drop leading and trailing whitespace. -/
def pyStrip (s : String) : String :=
  ⟨((s.data.dropWhile Char.isWhitespace).reverse.dropWhile Char.isWhitespace).reverse⟩

/-- Python `s.startswith(p)`. -/
def pyStartsWith (s p : String) : Bool := p.data.isPrefixOf s.data

/-- The apostrophe character, kept out of string literals. -/
def apos : String := String.singleton (Char.ofNat 39)

/-- Python `s.split(sep)` for the one-character separator used by the code:
splits at every occurrence, keeping empty parts; `""` yields `[""]`. -/
def splitOnSlashAux : List Char → List Char → List String
  | [], acc => [⟨acc.reverse⟩]
  | c :: rest, acc =>
      if c = '/' then ⟨acc.reverse⟩ :: splitOnSlashAux rest []
      else splitOnSlashAux rest (c :: acc)

/-- Python `s.split('/')`. -/
def splitOnSlash (s : String) : List String := splitOnSlashAux s.data []

/-- Python `s.rstrip('/')`. -/
def rstripSlashes (s : String) : String :=
  ⟨(s.data.reverse.dropWhile (fun c => c = '/')).reverse⟩

/-- Python `s.title()` on ASCII: a letter is upper-cased when the previous
character is not a letter, lower-cased otherwise. -/
def titleizeAux : Bool → List Char → List Char
  | _, [] => []
  | prevAlpha, c :: rest =>
      (if c.isAlpha then (if prevAlpha then lowerChar c else upperChar c) else c)
        :: titleizeAux c.isAlpha rest

/-- Python `s.title()`. -/
def titleize (s : String) : String := ⟨titleizeAux false s.data⟩

/-- Python `s.replace('-', ' ')`. -/
def replaceDashes (s : String) : String :=
  ⟨s.data.map (fun c => if c = '-' then ' ' else c)⟩

/-! ## Listing Parser (`get_country_urls`, scrape_advisories.py lines 21-78) -/

/-- One discovered country link: display name and absolute URL. -/
structure CountryLink where
  country : String
  url : String
deriving DecidableEq, Repr

/-- The exclusion keywords of `get_country_urls` (line 41). -/
def exclusionKeywords : List String := ["covid", "index", "search", "about"]

/-- The anchor filter of `get_country_urls` (lines 39-41): keep an href when it
contains `/advice/`, has at least five `/` characters, and its lower-casing
contains none of the exclusion keywords. -/
def keepHref (href : String) : Bool :=
  if strContains href "/advice/" ∧ 5 ≤ countChar href '/' then
    if ¬ (exclusionKeywords.any fun x => strContains (lowerStr href) x) then
      true
    else false
  else false

/-- Lines 42-49: build the CountryLink for a kept href.  The URL is the href
itself when absolute, else prefixed with the site origin; the display name is
the last path segment of the `/`-right-stripped href, with dashes replaced by
spaces and title-cased. -/
def buildLink (href : String) : CountryLink :=
  { country := titleize (replaceDashes ((splitOnSlash (rstripSlashes href)).getLastD ""))
    url := if pyStartsWith href "http" then href else "https://www.ireland.ie" ++ href }

/-- `pandas.DataFrame.drop_duplicates`: keep the first occurrence of each
record. -/
def dedupKeepFirst : List CountryLink → List CountryLink
  | [] => []
  | x :: xs => x :: (dedupKeepFirst xs).filter (fun y => y ≠ x)

/-- Result of `get_country_urls`: `links = none` models the Python `return
None` of the exception handler; `diagnostics` collects the printed messages. -/
structure ListingResult where
  links : Option (List CountryLink)
  diagnostics : List String
deriving DecidableEq

/-- `get_country_urls` (lines 21-78).  The fetch input carries the href of
every `<a href=...>` anchor of the index page in document order; an `.error`
models any exception from the request or the parser. -/
def get_country_urls (fetch : Except String (List String)) : ListingResult :=
  match fetch with
  | .ok hrefs =>
      { links := some (dedupKeepFirst ((hrefs.filter keepHref).map buildLink))
        diagnostics := [] }
  | .error e =>
      { links := none
        diagnostics :=
          [ "Error fetching country list: " ++ e
          , "The website may be blocking automated requests."
          , "Alternative method: Use your browser" ++ apos ++ "s developer console"
          , "Copy the output and save it as " ++ apos ++ "countries.json" ++ apos
          , "Then modify this script to load from that file instead" ] }

/-! ## Advisory Extractor (`get_advisory_level`, lines 80-126) -/

/-- A country advisory page, abstracted to the two elements the extractor
reads: the class attribute of the first `div.accordion_travel` (when such a
div exists) and the text of the first `h3.accordion__title` (when it exists). -/
structure Page where
  advisoryDiv : Option (List String)
  accordionTitle : Option String
deriving DecidableEq

/-- Lines 99-106: the class-substring tests, on the already joined and
lower-cased class string (the local `classes_str`), in priority order
4, 3, 2, 1. -/
def classTests (classes_str : String) : Option Nat :=
  if strContains classes_str "do-not-travel" then some 4
  else if strContains classes_str "avoid-non-essential-travel" ∨
          strContains classes_str "avoid-unnecessary-travel" then some 3
  else if strContains classes_str "high-degree-of-caution" ∨
          strContains classes_str "high-degree-caution" then some 2
  else if strContains classes_str "normal-precautions" then some 1
  else none

/-- Lines 95-106: join the class tokens of the container with spaces, lower-case,
and run the class-substring tests. -/
def classCheck (classes : List String) : Option Nat :=
  classTests (lowerStr (String.intercalate " " classes))

/-- Lines 113-120: the heading-substring tests, on the already stripped and
lower-cased heading text (the local `title_text`), in priority order
4, 3, 2, 1. -/
def titleTests (tt : String) : Option Nat :=
  if strContains tt "do not travel" then some 4
  else if strContains tt "avoid non-essential travel" ∨
          strContains tt "avoid unnecessary travel" then some 3
  else if strContains tt "high degree of caution" then some 2
  else if strContains tt "normal precautions" then some 1
  else none

/-- Lines 110-120: strip and lower-case the heading text and run the
heading-substring tests. -/
def titleMatch (t : String) : Option Nat :=
  titleTests (lowerStr (pyStrip t))

/-- Lines 108-120: the fallback heading heuristic applied to a page. -/
def titleCheck (page : Page) : Option Nat :=
  match page.accordionTitle with
  | some t => titleMatch t
  | none => none

/-- Lines 92-122: the extraction body.  When the container div is found and a
class substring matches, that level is returned; in every other case control
reaches the heading fallback, and `none` when that fails too. -/
def extractLevel (page : Page) : Option Nat :=
  match page.advisoryDiv with
  | some classes =>
      match classCheck classes with
      | some l => some l
      | none => titleCheck page
  | none => titleCheck page

/-- `get_advisory_level` (lines 80-126): any fetch or parse exception is
caught and yields `none`. -/
def get_advisory_level (fetch : Except String Page) : Option Nat :=
  match fetch with
  | .ok page => extractLevel page
  | .error _ => none

/-! ## Name Normalizer (`standardize_country_name`, lines 128-157) -/

/-- The alias → canonical table of `standardize_country_name`. -/
def countryNameMapping : List (String × String) :=
  [ ("Usa", "United States")
  , ("United States Of America", "United States")
  , ("Uk", "United Kingdom")
  , ("Uae", "United Arab Emirates")
  , ("Democratic Republic Of The Congo", "Democratic Republic of the Congo")
  , ("Drc", "Democratic Republic of the Congo")
  , ("Congo", "Republic of the Congo")
  , ("North Korea", "North Korea")
  , ("Dpr Korea", "North Korea")
  , ("South Korea", "South Korea")
  , ("Republic Of Korea", "South Korea")
  , ("Czech Republic", "Czechia")
  , ("Cote D" ++ apos ++ "ivoire", "Côte d" ++ apos ++ "Ivoire")
  , ("Ivory Coast", "Côte d" ++ apos ++ "Ivoire")
  , ("Burma", "Myanmar")
  , ("Cape Verde", "Cabo Verde")
  , ("East Timor", "Timor-Leste")
  , ("Laos", "Lao PDR")
  , ("Macedonia", "North Macedonia")
  , ("Swaziland", "Eswatini")
  , ("The Bahamas", "Bahamas")
  , ("The Gambia", "Gambia") ]

/-- `standardize_country_name`: `mapping.get(country, country)`. -/
def standardize_country_name (country : String) : String :=
  (countryNameMapping.lookup country).getD country

/-! ## Dataset Assembler (`main`, lines 180-205) -/

/-- One row of the assembled dataset (a row of `countries_with_data`). -/
structure AdvisoryRow where
  country : String
  url : String
  advisory_level : Nat
  country_standardized : String
  advisory_label : Option String
deriving DecidableEq, Repr

/-- The `level_labels` dict of lines 199-204; a key outside the dict maps to
nothing (pandas `.map` would produce NaN). -/
def level_labels : Nat → Option String
  | 1 => some "Normal Precautions"
  | 2 => some "High Degree of Caution"
  | 3 => some "Avoid Unnecessary Travel"
  | 4 => some "Do Not Travel"
  | _ => none

/-- Lines 192-205: join links with their extracted levels, drop the rows whose
level is absent (`notna` filter), attach the standardized name and the label. -/
def assemble (rows : List (CountryLink × Option Nat)) : List AdvisoryRow :=
  rows.filterMap fun cl =>
    match cl.2 with
    | none => none
    | some l =>
        some { country := cl.1.country
             , url := cl.1.url
             , advisory_level := l
             , country_standardized := standardize_country_name cl.1.country
             , advisory_label := level_labels l }

/-- The per-country scraping loop of lines 180-189: one extraction result per
country, in order. -/
def scrapeLevels (pageFetch : CountryLink → Except String Page)
    (countries : List CountryLink) : List (Option Nat) :=
  countries.map fun c => get_advisory_level (pageFetch c)

/-- The dataset `main` assembles from the discovered countries and the
per-country fetch outcomes. -/
def assembleDataset (pageFetch : CountryLink → Except String Page)
    (countries : List CountryLink) : List AdvisoryRow :=
  assemble (countries.map fun c => (c, get_advisory_level (pageFetch c)))

/-- Outcome of one run of `main`: aborted with the printed guidance, or
completed with the dataset written to the CSV. -/
inductive RunOutcome
  | aborted (msgs : List String)
  | completed (rows : List AdvisoryRow)
deriving DecidableEq

/-- `main` (lines 159-216), with both network stages as explicit inputs.
When the listing stage returns `None` or an empty frame, the run aborts
(lines 169-172); otherwise the dataset is assembled. -/
def mainRun (listingFetch : Except String (List String))
    (pageFetch : CountryLink → Except String Page) : RunOutcome :=
  let r := get_country_urls listingFetch
  match r.links with
  | none =>
      .aborted (r.diagnostics ++
        [ "Unable to automatically scrape country list."
        , "Please use the manual method described above." ])
  | some countries =>
      if countries.length = 0 then
        .aborted (r.diagnostics ++
          [ "Unable to automatically scrape country list."
          , "Please use the manual method described above." ])
      else
        .completed (assembleDataset pageFetch countries)

/-! ## Map Renderer export tail (`create_map`, create_map.py lines 88-98) -/

/-- Outcome of the export sequence: whether the PNG was written, the printed
messages, and whether the HTML export was performed. -/
structure ExportOutcome where
  pngSaved : Bool
  messages : List String
  htmlWritten : Bool
deriving DecidableEq

/-- Lines 88-98 of create_map.py: `fig.write_image` inside try/except — a
failure prints a warning — then `fig.write_html` unconditionally.  The input
models the `write_image` call, which raises when the optional backend is
missing. -/
def runExports (pngExport : Except String Unit) : ExportOutcome :=
  match pngExport with
  | .ok _ =>
      { pngSaved := true
      , messages := [ "Map saved as " ++ apos ++ "irish_travel_advisory_map.png" ++ apos
                      ++ " (high resolution)" ]
      , htmlWritten := true }
  | .error e =>
      { pngSaved := false
      , messages := [ "Could not save PNG: " ++ e
                    , "Note: PNG export requires " ++ apos ++ "kaleido" ++ apos
                      ++ " package: pip install kaleido" ]
      , htmlWritten := true }

/-! ## Helper lemmas -/

/-- Mapping every character preserves list prefixes. -/
lemma isPrefixOf_map (f : Char → Char) {n h : List Char} (hp : n.isPrefixOf h = true) :
    (n.map f).isPrefixOf (h.map f) = true := by
  rw [ List.isPrefixOf_iff_prefix] at hp ⊢
  exact hp.map f

/-- Mapping every character preserves substring containment. -/
lemma containsSub_map (f : Char → Char) {n : List Char} :
    ∀ h : List Char, containsSub n h = true → containsSub (n.map f) (h.map f) = true := by
  intro h
  induction h with
  | nil =>
      intro hc
      simp only [containsSub] at hc ⊢
      rw [List.isEmpty_iff] at hc
      subst hc
      rfl
  | cons c t ih =>
      intro hc
      simp only [containsSub] at hc ⊢
      rcases Bool.or_eq_true_iff.mp hc with hpre | hrest
      · exact Bool.or_eq_true_iff.mpr (Or.inl (isPrefixOf_map f hpre))
      · exact Bool.or_eq_true_iff.mpr (Or.inr (ih hrest))

/-- Lower-casing both strings preserves substring containment. -/
lemma strContains_lowerStr {hay needle : String} (h : strContains hay needle = true) :
    strContains (lowerStr hay) (lowerStr needle) = true :=
  containsSub_map lowerChar hay.data h

/-- A successful lookup names a pair of the association list. -/
lemma lookup_mem_countryNameMapping {k v : String}
    (h : countryNameMapping.lookup k = some v) : (k, v) ∈ countryNameMapping := by
  obtain ⟨l₁, l₂, hl, -⟩ := List.lookup_eq_some_iff.mp h
  rw [hl]
  exact List.mem_append_right _ (List.mem_cons_self _ _)

/-- Every canonical name of the table maps to itself. -/
lemma mapping_values_fixed :
    ∀ p ∈ countryNameMapping, standardize_country_name p.2 = p.2 := by decide

/-- A class string containing the hyphenated level-4 marker makes the class
tests return 4 (the first test in priority order). -/
lemma classCheck_doNotTravel {cs : List String}
    (h : strContains (lowerStr (String.intercalate " " cs)) "do-not-travel" = true) :
    classCheck cs = some 4 := by
  simp [classCheck, classTests, h]

/-- A heading text containing the spaced level-4 marker makes the heading
tests return 4 (the first test in priority order). -/
lemma titleMatch_doNotTravel {t : String}
    (h : strContains (lowerStr (pyStrip t)) "do not travel" = true) :
    titleMatch t = some 4 := by
  simp [titleMatch, titleTests, h]

/-- When the container div is found and a class test matches, that level is
the extraction result. -/
lemma extractLevel_class_some {page : Page} {cs : List String} {l : Nat}
    (hd : page.advisoryDiv = some cs) (hc : classCheck cs = some l) :
    extractLevel page = some l := by
  simp [extractLevel, hd, hc]

/-- When the container div is found but no class test matches, extraction
falls through to the heading heuristic. -/
lemma extractLevel_class_none {page : Page} {cs : List String}
    (hd : page.advisoryDiv = some cs) (hc : classCheck cs = none) :
    extractLevel page = titleCheck page := by
  simp [extractLevel, hd, hc]

/-- When no container div is found, extraction is the heading heuristic. -/
lemma extractLevel_no_div {page : Page} (hd : page.advisoryDiv = none) :
    extractLevel page = titleCheck page := by
  simp [extractLevel, hd]

/-- Deduplication neither adds nor removes records: membership is unchanged. -/
lemma mem_dedupKeepFirst {x : CountryLink} :
    ∀ {l : List CountryLink}, x ∈ dedupKeepFirst l ↔ x ∈ l := by
  intro l
  induction l with
  | nil => simp [dedupKeepFirst]
  | cons a t ih =>
      simp only [dedupKeepFirst, List.mem_cons, List.mem_filter]
      constructor
      · rintro (rfl | ⟨hx, -⟩)
        · exact Or.inl rfl
        · exact Or.inr (ih.mp hx)
      · rintro (rfl | hx)
        · exact Or.inl rfl
        · by_cases hax : x = a
          · exact Or.inl hax
          · exact Or.inr ⟨ih.mpr hx, by simpa using hax⟩

/-- The class tests return nothing or a level in 1..4. -/
lemma classCheck_range (cs : List String) :
    classCheck cs = none ∨ classCheck cs = some 1 ∨ classCheck cs = some 2 ∨
      classCheck cs = some 3 ∨ classCheck cs = some 4 := by
  unfold classCheck classTests
  split_ifs <;> simp

/-- The heading tests return nothing or a level in 1..4. -/
lemma titleMatch_range (t : String) :
    titleMatch t = none ∨ titleMatch t = some 1 ∨ titleMatch t = some 2 ∨
      titleMatch t = some 3 ∨ titleMatch t = some 4 := by
  unfold titleMatch titleTests
  split_ifs <;> simp

/-- The heading heuristic returns nothing or a level in 1..4. -/
lemma titleCheck_range (p : Page) :
    titleCheck p = none ∨ titleCheck p = some 1 ∨ titleCheck p = some 2 ∨
      titleCheck p = some 3 ∨ titleCheck p = some 4 := by
  unfold titleCheck
  cases p.accordionTitle with
  | none => exact Or.inl rfl
  | some t => exact titleMatch_range t

/-- Extraction returns nothing or a level in 1..4. -/
lemma extractLevel_range (p : Page) :
    extractLevel p = none ∨ extractLevel p = some 1 ∨ extractLevel p = some 2 ∨
      extractLevel p = some 3 ∨ extractLevel p = some 4 := by
  cases hd : p.advisoryDiv with
  | none =>
      rw [extractLevel_no_div hd]
      exact titleCheck_range p
  | some cs =>
      rcases classCheck_range cs with hc | hc | hc | hc | hc
      · rw [extractLevel_class_none hd hc]
        exact titleCheck_range p
      · exact Or.inr (Or.inl (extractLevel_class_some hd hc))
      · exact Or.inr (Or.inr (Or.inl (extractLevel_class_some hd hc)))
      · exact Or.inr (Or.inr (Or.inr (Or.inl (extractLevel_class_some hd hc))))
      · exact Or.inr (Or.inr (Or.inr (Or.inr (extractLevel_class_some hd hc))))

/-- `get_advisory_level` returns nothing or a level in 1..4. -/
lemma get_advisory_level_range (f : Except String Page) :
    get_advisory_level f = none ∨ get_advisory_level f = some 1 ∨
      get_advisory_level f = some 2 ∨ get_advisory_level f = some 3 ∨
      get_advisory_level f = some 4 := by
  cases f with
  | error e => exact Or.inl rfl
  | ok page => exact extractLevel_range page

/-! ## Claim theorems -/

/-- The page of the C1 counterexample: the container div is present and its
class string contains "do not travel" with spaces, but not the hyphenated
marker the code tests for; there is no heading. -/
def c1Page : Page :=
  { advisoryDiv := some ["accordion_travel", "do", "not", "travel"]
  , accordionTitle := none }

/-- C1 counterexample: an input whose primary container class string contains
"do not travel" (spaces, lower case) on which extraction returns `none`, not
level 4 — the class tests only match the hyphenated form `do-not-travel`. -/
theorem c1_counterexample :
    strContains (lowerStr (String.intercalate " " ["accordion_travel", "do", "not", "travel"]))
        "do not travel" = true
    ∧ c1Page.advisoryDiv = some ["accordion_travel", "do", "not", "travel"]
    ∧ extractLevel c1Page = none := by decide

/-- C1 (amended): if the primary container class string contains the
hyphenated marker `do-not-travel` (any letter case), extraction returns 4;
and if the heading heuristic decides — the container is absent or its class
tests match nothing — and the heading text contains `do not travel` (any
letter case), extraction returns 4. -/
theorem c1_do_not_travel (page : Page) :
    (∀ cs, page.advisoryDiv = some cs →
      strContains (lowerStr (String.intercalate " " cs)) "do-not-travel" = true →
      extractLevel page = some 4)
    ∧ (∀ t, page.accordionTitle = some t →
      (page.advisoryDiv = none ∨
        ∃ cs, page.advisoryDiv = some cs ∧ classCheck cs = none) →
      strContains (lowerStr (pyStrip t)) "do not travel" = true →
      extractLevel page = some 4) := by
  constructor
  · intro cs hd hc
    exact extractLevel_class_some hd (classCheck_doNotTravel hc)
  · intro t ht hdisj hc
    have htc : titleCheck page = some 4 := by
      unfold titleCheck
      rw [ht]
      exact titleMatch_doNotTravel hc
    rcases hdisj with hd | ⟨cs, hd, hcc⟩
    · rw [extractLevel_no_div hd]
      exact htc
    · rw [extractLevel_class_none hd hcc]
      exact htc

/-- C1 witness: the fixture class string of the spec yields level 4. -/
theorem c1_do_not_travel_witness :
    extractLevel { advisoryDiv := some ["accordion_travel", "do-not-travel", "accordion", "is-open"]
                 , accordionTitle := none } = some 4 :=
  (c1_do_not_travel _).1 _ rfl (by decide)

/-- The page of the C2 counterexample: the container div is found, its class
tests match nothing, and the heading text carries the level-4 phrase. -/
def c2Page : Page :=
  { advisoryDiv := some ["accordion_travel", "accordion", "is-open"]
  , accordionTitle := some "Security Status: Do Not Travel" }

/-- C2 counterexample: the primary container is found, so per the claim only
the class tests should decide (here: no match, hence absent); but the code
falls through to the heading heuristic and returns 4. -/
theorem c2_counterexample :
    c2Page.advisoryDiv = some ["accordion_travel", "accordion", "is-open"]
    ∧ classCheck ["accordion_travel", "accordion", "is-open"] = none
    ∧ extractLevel c2Page = some 4 := by decide

/-- C2 (amended): the heading heuristic is applied exactly when the primary
container is not found or its class tests produce no match; a class match
decides by itself, and when neither step matches the result is absent. -/
theorem c2_fallback_trigger (page : Page) :
    (∀ cs l, page.advisoryDiv = some cs → classCheck cs = some l →
      extractLevel page = some l)
    ∧ (∀ cs, page.advisoryDiv = some cs → classCheck cs = none →
      extractLevel page = titleCheck page)
    ∧ (page.advisoryDiv = none → extractLevel page = titleCheck page)
    ∧ ((page.advisoryDiv = none ∨
        ∃ cs, page.advisoryDiv = some cs ∧ classCheck cs = none) →
      titleCheck page = none → extractLevel page = none) := by
  refine ⟨fun cs l hd hc => extractLevel_class_some hd hc,
          fun cs hd hc => extractLevel_class_none hd hc,
          fun hd => extractLevel_no_div hd, ?_⟩
  intro hdisj htn
  rcases hdisj with hd | ⟨cs, hd, hcc⟩
  · rw [extractLevel_no_div hd, htn]
  · rw [extractLevel_class_none hd hcc, htn]

/-- C2 witness: with no container div, extraction equals the heading
heuristic. -/
theorem c2_fallback_trigger_witness :
    extractLevel { advisoryDiv := none, accordionTitle := some "Do Not Travel" } =
      titleCheck { advisoryDiv := none, accordionTitle := some "Do Not Travel" } :=
  (c2_fallback_trigger _).2.2.1 rfl

/-- The page of the C3 counterexample: the heading text contains both the
level-2 and level-4 phrases, but the class of the container already matches the
level-1 test. -/
def c3Page : Page :=
  { advisoryDiv := some ["accordion_travel", "normal-precautions"]
  , accordionTitle := some "Do not travel - high degree of caution" }

/-- C3 counterexample: an input whose heading text contains both the level-2
marker and the level-4 marker, yet extraction returns 1, because the found
class tests of the found container decide first. -/
theorem c3_counterexample :
    strContains (lowerStr (pyStrip "Do not travel - high degree of caution"))
        "do not travel" = true
    ∧ strContains (lowerStr (pyStrip "Do not travel - high degree of caution"))
        "high degree of caution" = true
    ∧ extractLevel c3Page = some 1 := by decide

/-- C3 (amended): within each matching step the first matching substring in
the priority order 4, 3, 2, 1 wins.  A class string containing both the
hyphenated level-2 and level-4 markers makes the class tests — and extraction
— return 4; a heading text containing both spaced markers makes the heading
tests return 4. -/
theorem c3_priority_order :
    (∀ (page : Page) cs, page.advisoryDiv = some cs →
      strContains (lowerStr (String.intercalate " " cs)) "do-not-travel" = true →
      strContains (lowerStr (String.intercalate " " cs)) "high-degree-of-caution" = true →
      classCheck cs = some 4 ∧ extractLevel page = some 4)
    ∧ (∀ t, strContains (lowerStr (pyStrip t)) "do not travel" = true →
      strContains (lowerStr (pyStrip t)) "high degree of caution" = true →
      titleMatch t = some 4) := by
  constructor
  · intro page cs hd h4 h2
    have hcc := classCheck_doNotTravel h4
    exact ⟨hcc, extractLevel_class_some hd hcc⟩
  · intro t h4 h2
    exact titleMatch_doNotTravel h4

/-- C3 witness: a class string carrying both markers resolves to level 4. -/
theorem c3_priority_order_witness :
    classCheck ["accordion_travel", "do-not-travel", "high-degree-of-caution"] = some 4 ∧
      extractLevel { advisoryDiv := some ["accordion_travel", "do-not-travel", "high-degree-of-caution"]
                   , accordionTitle := none } = some 4 :=
  c3_priority_order.1 _ _ rfl (by decide) (by decide)

/-- Modelled from the spec wording of C4: the path segments of an href are its
nonempty `/`-separated components (the advisory path segment `advice` is one
such component).  The code never computes this; it counts `/` characters. -/
def pathSegments (href : String) : List String :=
  (splitOnSlash href).filter (fun p => p ≠ "")

/-- C4 counterexample: the href `/advice/a/b/c/` has only four path segments,
so the claim requires it to be excluded, yet the code keeps it — the code
tests `href.count('/') >= 5` (five slashes here), not a segment count. -/
theorem c4_counterexample :
    (pathSegments "/advice/a/b/c/").length = 4 ∧
      (pathSegments "/advice/a/b/c/").length < 5 ∧
      keepHref "/advice/a/b/c/" = true := by decide

/-- C4 (amended): the Listing Parser keeps an anchor if and only if its href
contains the advisory path segment, has at least five `/` characters (the
count the code tests, rather than a count of path segments), and its
lower-casing contains no exclusion keyword; every href with fewer than five
slashes or carrying a keyword is excluded, every kept href contributes its
link to the output, and every output link comes from a kept href. -/
theorem c4_listing_filter (hrefs : List String) (href : String) :
    (keepHref href = true ↔
      (strContains href "/advice/" = true ∧ 5 ≤ countChar href '/' ∧
        ∀ kw ∈ exclusionKeywords, strContains (lowerStr href) kw = false))
    ∧ ((countChar href '/' < 5 ∨
        ∃ kw ∈ exclusionKeywords, strContains (lowerStr href) kw = true) →
      keepHref href = false)
    ∧ (href ∈ hrefs → keepHref href = true →
      buildLink href ∈ ((get_country_urls (.ok hrefs)).links.getD []))
    ∧ (∀ l ∈ ((get_country_urls (.ok hrefs)).links.getD []),
      ∃ h0 ∈ hrefs, keepHref h0 = true ∧ l = buildLink h0) := by
  have hiff : keepHref href = true ↔
      (strContains href "/advice/" = true ∧ 5 ≤ countChar href '/' ∧
        ∀ kw ∈ exclusionKeywords, strContains (lowerStr href) kw = false) := by
    constructor
    · intro hk
      unfold keepHref at hk
      split_ifs at hk with h1 h2
      · refine ⟨h1.1, h1.2, fun kw hkw => ?_⟩
        cases hb : strContains (lowerStr href) kw with
        | false => rfl
        | true => exact absurd (List.any_eq_true.mpr ⟨kw, hkw, hb⟩) h2
    · rintro ⟨ha, hc, hall⟩
      have hany : (exclusionKeywords.any fun x => strContains (lowerStr href) x) = false := by
        rw [List.any_eq_false]
        intro kw hkw
        simp [hall kw hkw]
      simp [keepHref, ha, hc, hany]
  have hlinks : ((get_country_urls (.ok hrefs)).links.getD []) =
      dedupKeepFirst ((hrefs.filter keepHref).map buildLink) := rfl
  refine ⟨hiff, ?_, ?_, ?_⟩
  · intro hdisj
    cases hkb : keepHref href with
    | false => rfl
    | true =>
        exfalso
        rcases hiff.mp hkb with ⟨-, hcount, hall⟩
        rcases hdisj with hlt | ⟨kw, hkw, htrue⟩
        · omega
        · rw [hall kw hkw] at htrue
          exact absurd htrue Bool.false_ne_true
  · intro hmem hk
    rw [hlinks, mem_dedupKeepFirst]
    exact List.mem_map_of_mem _ (List.mem_filter.mpr ⟨hmem, hk⟩)
  · intro l hl
    rw [hlinks, mem_dedupKeepFirst] at hl
    rcases List.mem_map.mp hl with ⟨h0, hh0, rfl⟩
    rcases List.mem_filter.mp hh0 with ⟨hmem, hk⟩
    exact ⟨h0, hmem, hk, rfl⟩

/-- The href of the C4 witness. -/
def c4Href : String := "/en/dfa/overseas-travel/advice/france/"

/-- C4 witness: a well-formed advisory href is kept and its link reaches the
output. -/
theorem c4_listing_filter_witness :
    buildLink c4Href ∈ ((get_country_urls (.ok [c4Href])).links.getD []) :=
  (c4_listing_filter [c4Href] c4Href).2.2.1 (by decide) (by decide)

/-- C5: every row the Dataset Assembler emits has a level in 1..4 and carries
the matching human-readable label. -/
theorem c5_assembler_no_absent_rows (pageFetch : CountryLink → Except String Page)
    (countries : List CountryLink) :
    ∀ row ∈ assembleDataset pageFetch countries,
      (row.advisory_level = 1 ∧ row.advisory_label = some "Normal Precautions") ∨
      (row.advisory_level = 2 ∧ row.advisory_label = some "High Degree of Caution") ∨
      (row.advisory_level = 3 ∧ row.advisory_label = some "Avoid Unnecessary Travel") ∨
      (row.advisory_level = 4 ∧ row.advisory_label = some "Do Not Travel") := by
  intro row hrow
  unfold assembleDataset assemble at hrow
  rcases List.mem_filterMap.mp hrow with ⟨cl, hcl, hsome⟩
  rcases List.mem_map.mp hcl with ⟨c, hc, rfl⟩
  dsimp only at hsome
  rcases get_advisory_level_range (pageFetch c) with h | h | h | h | h <;> rw [h] at hsome
  · exact absurd hsome (by simp)
  · cases hsome
    exact Or.inl ⟨rfl, rfl⟩
  · cases hsome
    exact Or.inr (Or.inl ⟨rfl, rfl⟩)
  · cases hsome
    exact Or.inr (Or.inr (Or.inl ⟨rfl, rfl⟩))
  · cases hsome
    exact Or.inr (Or.inr (Or.inr ⟨rfl, rfl⟩))

/-- The fetch of the C5 witness: one page whose container carries the level-4
class. -/
def c5Fetch : CountryLink → Except String Page :=
  fun _ => .ok { advisoryDiv := some ["accordion_travel", "do-not-travel", "accordion", "is-open"]
               , accordionTitle := none }

/-- The country of the C5 witness. -/
def c5Country : CountryLink :=
  { country := "France", url := "https://www.ireland.ie/en/dfa/overseas-travel/advice/france/" }

/-- The row the C5 witness obtains from the assembler. -/
def c5Row : AdvisoryRow :=
  { country := "France"
  , url := "https://www.ireland.ie/en/dfa/overseas-travel/advice/france/"
  , advisory_level := 4
  , country_standardized := "France"
  , advisory_label := some "Do Not Travel" }

/-- C5 witness: the theorem applied to a concrete one-country run. -/
theorem c5_assembler_no_absent_rows_witness :
    (c5Row.advisory_level = 1 ∧ c5Row.advisory_label = some "Normal Precautions") ∨
      (c5Row.advisory_level = 2 ∧ c5Row.advisory_label = some "High Degree of Caution") ∨
      (c5Row.advisory_level = 3 ∧ c5Row.advisory_label = some "Avoid Unnecessary Travel") ∨
      (c5Row.advisory_level = 4 ∧ c5Row.advisory_label = some "Do Not Travel") :=
  c5_assembler_no_absent_rows c5Fetch [c5Country] c5Row (by decide)

/-- C8 counterexample: on a listing fetch error the result of the parser is the
absent value `None`, not an empty collection of CountryLinks as the claim
states. -/
theorem c8_counterexample :
    (get_country_urls (.error "timeout")).links = none ∧
      (get_country_urls (.error "timeout")).links ≠ some ([] : List CountryLink) := by
  refine ⟨rfl, ?_⟩
  simp [get_country_urls]

/-- C8 (amended): on a network or parse error while discovering the listing,
the Listing Parser yields an absent result (`None`, rather than an empty
collection) together with diagnostics describing the manual fallback, and
the run aborts without using any partial listing. -/
theorem c8_listing_error_aborts (e : String) (pageFetch : CountryLink → Except String Page) :
    (get_country_urls (.error e)).links = none ∧
      "The website may be blocking automated requests." ∈
        (get_country_urls (.error e)).diagnostics ∧
      ∃ msgs, mainRun (.error e) pageFetch = RunOutcome.aborted msgs := by
  exact ⟨rfl, by simp [get_country_urls], ⟨_, rfl⟩⟩

/-- C6: the Name Normalizer is idempotent: normalizing twice equals normalizing
once, so an already-canonical name (any value of the normalizer) is returned
unchanged. -/
theorem c6_normalizer_idempotent (n : String) :
    standardize_country_name (standardize_country_name n) = standardize_country_name n := by
  cases h : countryNameMapping.lookup n with
  | none =>
      have h1 : standardize_country_name n = n := by
        unfold standardize_country_name
        rw [h]
        rfl
      rw [h1]
      exact h1
  | some v =>
      have h1 : standardize_country_name n = v := by
        unfold standardize_country_name
        rw [h]
        rfl
      rw [h1]
      exact mapping_values_fixed (n, v) (lookup_mem_countryNameMapping h)

/-- C7: an error while fetching or parsing one country page is caught and
yields an absent level, and the scraping loop still produces one entry per
country. -/
theorem c7_country_error_nonfatal (pageFetch : CountryLink → Except String Page)
    (countries : List CountryLink) (c : CountryLink) (e : String)
    (hc : c ∈ countries) (he : pageFetch c = .error e) :
    get_advisory_level (pageFetch c) = none ∧
      (scrapeLevels pageFetch countries).length = countries.length ∧
      none ∈ scrapeLevels pageFetch countries := by
  have h1 : get_advisory_level (pageFetch c) = none := by
    rw [he]
    rfl
  refine ⟨h1, by simp [scrapeLevels], ?_⟩
  have h2 : get_advisory_level (pageFetch c) ∈
      List.map (fun c => get_advisory_level (pageFetch c)) countries :=
    List.mem_map_of_mem _ hc
  rw [h1] at h2
  exact h2

/-- Concrete instantiation of `c7_country_error_nonfatal`: a fetch that times
out for the one listed country. -/
def c7Fetch : CountryLink → Except String Page := fun _ => .error "timeout"

/-- The country used in the C7 witness. -/
def c7Country : CountryLink :=
  { country := "France", url := "https://www.ireland.ie/en/dfa/overseas-travel/advice/france/" }

/-- C7 witness: the theorem applied to a concrete failing fetch. -/
theorem c7_country_error_nonfatal_witness :
    get_advisory_level (c7Fetch c7Country) = none ∧
      (scrapeLevels c7Fetch [c7Country]).length = [c7Country].length ∧
      none ∈ scrapeLevels c7Fetch [c7Country] :=
  c7_country_error_nonfatal c7Fetch [c7Country] c7Country "timeout" (by simp) rfl

/-- C9: a PNG export failure is caught — the warning is among the printed
messages, the PNG is not saved — and the interactive HTML export still runs. -/
theorem c9_png_failure_nonfatal (e : String) :
    (runExports (.error e)).htmlWritten = true ∧
      (runExports (.error e)).pngSaved = false ∧
      ("Could not save PNG: " ++ e) ∈ (runExports (.error e)).messages := by
  refine ⟨rfl, rfl, ?_⟩
  simp [runExports]

/-- C10: the exclusion-keyword test runs on the lower-cased href, so an href
containing any mixed-case variant of an exclusion keyword is never kept. -/
theorem c10_exclusion_case_insensitive (href s kw : String)
    (hkw : kw ∈ exclusionKeywords) (hlow : lowerStr s = kw)
    (hsub : strContains href s = true) :
    keepHref href = false := by
  have hlowsub : strContains (lowerStr href) kw = true := by
    rw [← hlow]
    exact strContains_lowerStr hsub
  have hany : (exclusionKeywords.any fun x => strContains (lowerStr href) x) = true :=
    List.any_eq_true.mpr ⟨kw, hkw, hlowsub⟩
  unfold keepHref
  split_ifs with h1
  · rfl
  · rfl

/-- C10 witness: an href containing `CoViD` is excluded. -/
theorem c10_exclusion_case_insensitive_witness :
    keepHref "/en/dfa/overseas-travel/advice/CoViD-19/" = false :=
  c10_exclusion_case_insensitive "/en/dfa/overseas-travel/advice/CoViD-19/" "CoViD" "covid"
    (by decide) (by decide) (by decide)

end TravelAdvisory
